import Mathlib

/-!
Shallow embedding of `src/vispy/gloo/framebuffer.py`: the RenderBuffer and
FrameBuffer classes of the gloo object model, their mutation methods, and
the GLIR commands those methods emit.

Python methods that mutate `self` and may raise are modelled as functions
`state → args → state × List Command × Option Err`: the returned state is the
object after the call (unchanged when the call raised, except where the
source really does mutate before raising), the list holds the GLIR commands
sent through `self._context.glir.command(...)` during the call, and the
`Option Err` is the exception raised, if any.  Pure queries that may raise
are modelled with `Except`.
-/

namespace Vispy

/-- OpenGL enum value `GL_RGBA` (0x1908), used by `RenderBuffer.resize` for the
string format "color". -/
def GL_RGBA : Nat := 6408

/-- OpenGL enum value `GL_DEPTH_COMPONENT16` (0x81A5), the "depth" format. -/
def GL_DEPTH_COMPONENT16 : Nat := 33189

/-- OpenGL enum value `GL_STENCIL_INDEX8` (0x8D48), the "stencil" format. -/
def GL_STENCIL_INDEX8 : Nat := 36168

/-- OpenGL enum value `GL_COLOR_ATTACHMENT0` (0x8CE0), the color slot target
tag used by the `color_buffer` setter. -/
def GL_COLOR_ATTACHMENT0 : Nat := 36064

/-- OpenGL enum value `GL_DEPTH_ATTACHMENT` (0x8D00), the depth slot target
tag used by the `depth_buffer` setter. -/
def GL_DEPTH_ATTACHMENT : Nat := 36096

/-- OpenGL enum value `GL_STENCIL_ATTACHMENT` (0x8D20), the stencil slot
target tag used by the `stencil_buffer` setter. -/
def GL_STENCIL_ATTACHMENT : Nat := 36128

/-- The Python exceptions raised in `framebuffer.py`, named after the error
taxonomy of the specification (section 7), which maps each `raise` site to an
abstract error name.  Comments give the concrete Python exception. -/
inductive Err where
  /-- `RuntimeError("Buffer is not resizeable")` / `("FrameBuffer is not resizeable")`. -/
  | ImmutableResourceError
  /-- `ValueError` for a shape that is not a 2/3 element tuple (also the unpack
  failure of `h, w = buffer._shape` when the stored shape has 3 elements). -/
  | InvalidShapeError
  /-- `ValueError("Format can only be None if already set.")`. -/
  | MissingFormatError
  /-- `ValueError` for a format string outside color/depth/stencil. -/
  | InvalidFormatError
  /-- `TypeError` raised by the attachment setters on a wrong object kind. -/
  | TypeMismatchError
  /-- `RuntimeError("FrameBuffer without buffers has undefined shape")`. -/
  | UndefinedShapeError
  /-- failure of `read` when the requested slot holds no buffer
  (`None._shape` in the source). -/
  | NoAttachmentError
  /-- `ValueError` raised by `_check_valid` for a bad read mode. -/
  | InvalidModeError
  deriving DecidableEq

/-- The dynamic class of a gloo object, as tested by the `isinstance` checks
in the attachment setters.  `ColorBuffer`, `DepthBuffer` and `StencilBuffer`
are the (deprecated) subclasses of `RenderBuffer` defined in
`framebuffer.py`; `texture2D` stands for `Texture2D`; `other` stands for any
other GLObject (e.g. a Program). -/
inductive GKind where
  | renderBuffer
  | colorBuffer
  | depthBuffer
  | stencilBuffer
  | texture2D
  | other
  deriving DecidableEq

/-- `isinstance(x, RenderBuffer)`: true for the base class and its three
subclasses declared in `framebuffer.py`. -/
def GKind.isRenderBufferInstance : GKind → Bool
  | .renderBuffer => true
  | .colorBuffer => true
  | .depthBuffer => true
  | .stencilBuffer => true
  | _ => false

/-- The `format` argument of `RenderBuffer.resize`: either a raw numeric GL
enum (`isinstance(format, int)`) or a string ("color" / "depth" /
"stencil" / anything else).  The Python value `None` is `Option.none` at the
call sites. -/
inductive FmtArg where
  | intCode (code : Nat)
  | strName (name : String)
  deriving DecidableEq

/-- State of a gloo object attachable to a FrameBuffer.  `shape` and
`format` are `Option` because the Python attributes `_shape` / `_format`
only come into existence on the first successful `resize`; `id` is the
LogicalId assigned by `GLObject.__init__`. -/
structure GObj where
  id : Nat
  kind : GKind
  resizeable : Bool
  shape : Option (List Nat) := none
  format : Option Nat := none
  deriving DecidableEq

/-- The GLIR commands emitted by the code under study:
`SIZE` from `RenderBuffer.resize` (line 92) and `ATTACH` from the three
FrameBuffer attachment setters (lines 245, 261, 277). -/
inductive Command where
  | SIZE (objId : Nat) (shape : List Nat) (format : Nat)
  | ATTACH (fbId : Nat) (target : Nat) (attachedId : Nat)
  deriving DecidableEq

/-- The format-resolution block of `RenderBuffer.resize` (lines 73-87):
`None` falls back to the stored format (error if that was never set), an int
passes through unchecked, and a string is looked up in the
color/depth/stencil table. -/
def resolveFormat (self : GObj) (format : Option FmtArg) : Except Err Nat :=
  match format with
  | none =>
    match self.format with
    | some f => Except.ok f
    | none => Except.error Err.MissingFormatError
  | some (FmtArg.intCode code) => Except.ok code
  | some (FmtArg.strName s) =>
    if s = "color" then Except.ok GL_RGBA
    else if s = "depth" then Except.ok GL_DEPTH_COMPONENT16
    else if s = "stencil" then Except.ok GL_STENCIL_INDEX8
    else Except.error Err.InvalidFormatError

/-- `RenderBuffer.resize(shape, format)` (lines 51-92): resizeable check,
shape arity check, format resolution, then — only after all checks — the
stores `self._shape = shape; self._format = format` and the SIZE command. -/
def rb_resize (self : GObj) (shape : List Nat) (format : Option FmtArg) :
    GObj × List Command × Option Err :=
  if self.resizeable = false then (self, [], some Err.ImmutableResourceError)
  else if shape.length = 2 ∨ shape.length = 3 then
    match resolveFormat self format with
    | Except.error e => (self, [], some e)
    | Except.ok f =>
      ({ self with shape := some shape, format := some f },
       [Command.SIZE self.id shape f], none)
  else (self, [], some Err.InvalidShapeError)

/-- `RenderBuffer.__init__(shape, format, resizeable)` (lines 34-37): stores
the resizeable flag and performs the initial sizing through `resize`.  The
`kind` parameter records which class of the RenderBuffer hierarchy is being
constructed (the subclass constructors all delegate here). -/
def RenderBuffer_init (id : Nat) (kind : GKind) (shape : List Nat)
    (format : Option FmtArg) (resizeable : Bool) :
    GObj × List Command × Option Err :=
  rb_resize { id := id, kind := kind, resizeable := resizeable } shape format

/-- State of a `FrameBuffer` (lines 209-225): the three optional attachment
slots and the resizeable flag. -/
structure FBState where
  id : Nat
  resizeable : Bool
  color : Option GObj := none
  depth : Option GObj := none
  stencil : Option GObj := none
  deriving DecidableEq

/-- The `color_buffer` setter (lines 239-248): accepts a `ColorBuffer`, a
`Texture2D` or `None`; on success stores the buffer and emits ATTACH with
target `GL_COLOR_ATTACHMENT0` and the buffer id (0 on detach); otherwise
raises `TypeError`. -/
def set_color_buffer (self : FBState) (buffer : Option GObj) :
    FBState × List Command × Option Err :=
  match buffer with
  | none =>
    ({ self with color := none }, [Command.ATTACH self.id GL_COLOR_ATTACHMENT0 0], none)
  | some b =>
    if b.kind = GKind.colorBuffer ∨ b.kind = GKind.texture2D then
      ({ self with color := some b },
       [Command.ATTACH self.id GL_COLOR_ATTACHMENT0 b.id], none)
    else (self, [], some Err.TypeMismatchError)

/-- The `depth_buffer` setter (lines 255-264): accepts a `DepthBuffer`, a
`Texture2D` or `None`; target is `GL_DEPTH_ATTACHMENT`. -/
def set_depth_buffer (self : FBState) (buffer : Option GObj) :
    FBState × List Command × Option Err :=
  match buffer with
  | none =>
    ({ self with depth := none }, [Command.ATTACH self.id GL_DEPTH_ATTACHMENT 0], none)
  | some b =>
    if b.kind = GKind.depthBuffer ∨ b.kind = GKind.texture2D then
      ({ self with depth := some b },
       [Command.ATTACH self.id GL_DEPTH_ATTACHMENT b.id], none)
    else (self, [], some Err.TypeMismatchError)

/-- The `stencil_buffer` setter (lines 271-280): accepts a `StencilBuffer`
or `None` (the `isinstance` check names only `StencilBuffer`, even though
the error message mentions `Texture2D`); target is `GL_STENCIL_ATTACHMENT`. -/
def set_stencil_buffer (self : FBState) (buffer : Option GObj) :
    FBState × List Command × Option Err :=
  match buffer with
  | none =>
    ({ self with stencil := none }, [Command.ATTACH self.id GL_STENCIL_ATTACHMENT 0], none)
  | some b =>
    if b.kind = GKind.stencilBuffer then
      ({ self with stencil := some b },
       [Command.ATTACH self.id GL_STENCIL_ATTACHMENT b.id], none)
    else (self, [], some Err.TypeMismatchError)

/-- The `FrameBuffer.shape` property (lines 282-292): the stored shape of
the first attached buffer in color → depth → stencil order,
`RuntimeError` when all three slots are empty. -/
def fb_shape (self : FBState) : Except Err (Option (List Nat)) :=
  match self.color with
  | some b => Except.ok b.shape
  | none =>
    match self.depth with
    | some b => Except.ok b.shape
    | none =>
      match self.stencil with
      | some b => Except.ok b.shape
      | none => Except.error Err.UndefinedShapeError

/-- The call `buffer.resize(shape)` that `FrameBuffer.resize` makes on an
attachment.  For the RenderBuffer hierarchy this is `rb_resize` with format
`None` (so each buffer keeps its own format).  A `Texture2D` attachment's
resize lives in `texture.py`, which is not under src/; modelled from the
spec, section 4.2, which gives Texture the same resize contract (resizeable
check, shape arity check, reuse of the last-set format, SIZE emission) —
the same function therefore serves both. -/
def obj_resize (self : GObj) (shape : List Nat) :
    GObj × List Command × Option Err :=
  rb_resize self shape none

/-- One slot of the resize loop of `FrameBuffer.resize` (lines 310-315): an
empty slot is skipped, an attached buffer is resized in place. -/
def resize_slot (slot : Option GObj) (shape : List Nat) :
    Option GObj × List Command × Option Err :=
  match slot with
  | none => (none, [], none)
  | some b =>
    let r := obj_resize b shape
    (some r.1, r.2.1, r.2.2)

/-- `FrameBuffer.resize(shape)` (lines 294-315): resizeable check, shape
arity check, then the attached buffers are resized in the order color,
depth, stencil.  A Python exception from one buffer's resize aborts the
method, leaving the buffers already resized at their new size; the state
returned here reflects exactly the mutations made before the raise. -/
def fb_resize (self : FBState) (shape : List Nat) :
    FBState × List Command × Option Err :=
  if self.resizeable = false then (self, [], some Err.ImmutableResourceError)
  else if shape.length = 2 ∨ shape.length = 3 then
    let rc := resize_slot self.color shape
    match rc.2.2 with
    | some e => ({ self with color := rc.1 }, rc.2.1, some e)
    | none =>
      let rd := resize_slot self.depth shape
      match rd.2.2 with
      | some e => ({ self with color := rc.1, depth := rd.1 }, rc.2.1 ++ rd.2.1, some e)
      | none =>
        let rs := resize_slot self.stencil shape
        ({ self with color := rc.1, depth := rd.1, stencil := rs.1 },
         rc.2.1 ++ rd.2.1 ++ rs.2.1, rs.2.2)
  else (self, [], some Err.InvalidShapeError)

/-- Modelled from the spec: `read_pixels(viewport, alpha)` lives in
`wrappers.py`, which is not under src/.  Section 6 gives its readback
contract — a pixel array of shape (height, width, 4) when alpha is set and
(height, width, 3) otherwise; only the shape of the returned array is
modelled. -/
def read_pixels (h w : Nat) (alpha : Bool) : Nat × Nat × Nat :=
  (h, w, if alpha then 4 else 3)

/-- `FrameBuffer.read(mode, alpha)` (lines 317-342): validates the mode
(`_check_valid` is in `wrappers.py`, not under src/; modelled from the spec,
section 6: mode must be color, depth or stencil), fetches the slot named by
the mode, unpacks `h, w = buffer._shape` (failing when the slot is empty or
the stored shape does not have exactly two elements) and returns the
`read_pixels` result over `(0, 0, w, h)`. -/
def fb_read (self : FBState) (mode : String) (alpha : Bool) :
    Except Err (Nat × Nat × Nat) :=
  if mode = "color" ∨ mode = "depth" ∨ mode = "stencil" then
    match (if mode = "color" then self.color
           else if mode = "depth" then self.depth else self.stencil) with
    | none => Except.error Err.NoAttachmentError
    | some b =>
      match b.shape with
      | some [h, w] => Except.ok (read_pixels h w alpha)
      | _ => Except.error Err.InvalidShapeError
  else Except.error Err.InvalidModeError

/-! Concrete fixtures used by the theorems below.  Each is a state reachable
through the constructors and setters above (or, where noted, a state the
relevant claim quantifies over). -/

/-- The state built by `RenderBuffer((480, 640), 'color')`. -/
def rbColor480 : GObj :=
  (RenderBuffer_init 1 GKind.renderBuffer [480, 640]
    (some (FmtArg.strName "color")) true).1

/-- The state built by `RenderBuffer((4, 5), 'stencil')`. -/
def rbStencil45 : GObj :=
  (RenderBuffer_init 2 GKind.renderBuffer [4, 5]
    (some (FmtArg.strName "stencil")) true).1

/-- A `StencilBuffer((4, 5))` instance. -/
def sb45 : GObj :=
  { id := 3, kind := GKind.stencilBuffer, resizeable := true,
    shape := some [4, 5], format := some GL_STENCIL_INDEX8 }

/-- A FrameBuffer with no attachments. -/
def fbEmpty : FBState := { id := 7, resizeable := true }

/-- A FrameBuffer whose stencil slot already holds `sb45`. -/
def fbWithStencil : FBState := { id := 9, resizeable := true, stencil := some sb45 }

/-- A buffer state with the resizeable flag cleared (the configuration
claims C5 and C10 quantify over). -/
def rbFrozen : GObj :=
  { id := 4, kind := GKind.renderBuffer, resizeable := false,
    shape := some [10, 20], format := some GL_RGBA }

/-- A resizeable color-format buffer used as a witness input. -/
def rbC6 : GObj :=
  { id := 5, kind := GKind.renderBuffer, resizeable := true,
    shape := some [10, 20], format := some GL_RGBA }

/-- A buffer whose format was never set (the state inside
`RenderBuffer.__init__` before the first resize). -/
def rbNoFormat : GObj :=
  { id := 6, kind := GKind.renderBuffer, resizeable := true }

/-- A `ColorBuffer` attachment for the FrameBuffer-resize witness. -/
def colorBuf7 : GObj :=
  { id := 11, kind := GKind.colorBuffer, resizeable := true,
    shape := some [480, 640], format := some GL_RGBA }

/-- A non-resizeable `DepthBuffer` attachment, whose resize fails. -/
def depthFrozen7 : GObj :=
  { id := 12, kind := GKind.depthBuffer, resizeable := false,
    shape := some [480, 640], format := some GL_DEPTH_COMPONENT16 }

/-- A `StencilBuffer` attachment for the FrameBuffer-resize witness. -/
def stencilBuf7 : GObj :=
  { id := 13, kind := GKind.stencilBuffer, resizeable := true,
    shape := some [480, 640], format := some GL_STENCIL_INDEX8 }

/-- A fully populated FrameBuffer whose depth attachment cannot resize. -/
def fb7 : FBState :=
  { id := 10, resizeable := true, color := some colorBuf7,
    depth := some depthFrozen7, stencil := some stencilBuf7 }

/-- A color attachment of shape (240, 320) for the read witness. -/
def c8 : GObj :=
  { id := 21, kind := GKind.colorBuffer, resizeable := true,
    shape := some [240, 320], format := some GL_RGBA }

/-- A FrameBuffer holding only the color attachment `c8`. -/
def fb8 : FBState := { id := 20, resizeable := true, color := some c8 }

/-- A resizeable buffer used as a witness input for failed resizes. -/
def rb10 : GObj :=
  { id := 31, kind := GKind.renderBuffer, resizeable := true,
    shape := some [2, 2], format := some GL_RGBA }

/-! Helper lemmas shared by several proofs. -/

/-- When `RenderBuffer.resize` raises, it returns the object unchanged and
has emitted nothing: every `raise` in the source precedes the stores and
the SIZE emission. -/
theorem rb_resize_error_eq (rb : GObj) (shape : List Nat) (format : Option FmtArg)
    (e : Err) (h : (rb_resize rb shape format).2.2 = some e) :
    rb_resize rb shape format = (rb, [], some e) := by
  by_cases h1 : rb.resizeable = false
  · simp_all [rb_resize]
  · by_cases h2 : shape.length = 2 ∨ shape.length = 3
    · cases hf : resolveFormat rb format with
      | error e2 => simp_all [rb_resize]
      | ok f => simp_all [rb_resize]
    · simp_all [rb_resize]

/-- `RenderBuffer.resize` never touches the resizeable flag. -/
theorem rb_resize_preserves_resizeable (st : GObj) (sh : List Nat)
    (f : Option FmtArg) : ((rb_resize st sh f).1).resizeable = st.resizeable := by
  by_cases h1 : st.resizeable = false
  · simp [rb_resize, h1]
  · by_cases h2 : sh.length = 2 ∨ sh.length = 3
    · cases hf : resolveFormat st f with
      | error e2 => simp [rb_resize, h1, h2, hf]
      | ok fv => simp [rb_resize, h1, h2, hf]
    · simp [rb_resize, h1, h2]

/-- When the resize of one slot raises, the slot is left as it was and no
command was emitted by it. -/
theorem resize_slot_error_eq (slot : Option GObj) (shape : List Nat) (e : Err)
    (h : (resize_slot slot shape).2.2 = some e) :
    resize_slot slot shape = (slot, [], some e) := by
  cases slot with
  | none => simp [resize_slot] at h
  | some b =>
    have h2 : (rb_resize b shape none).2.2 = some e := by
      simpa [resize_slot, obj_resize] using h
    have h3 := rb_resize_error_eq b shape none e h2
    simp [resize_slot, obj_resize, h3]

/-! The claims. -/

/-- C1: the claim fails on the code.  A successfully constructed plain
`RenderBuffer` — here `RenderBuffer((480, 640), 'color')` — is rejected by
both the color and the depth setters with `TypeError`, leaving the slot
unchanged and emitting no ATTACH command, because the `isinstance` checks
(lines 242 and 258) name only the deprecated subclasses `ColorBuffer` /
`DepthBuffer` plus `Texture2D`.  This contradicts the `FrameBuffer`
docstring, which documents the color and depth parameters as RenderBuffer,
and the deprecation warnings that direct users from those subclasses to
RenderBuffer. -/
theorem C1_color_depth_reject_renderBuffer :
    (RenderBuffer_init 1 GKind.renderBuffer [480, 640]
        (some (FmtArg.strName "color")) true).2.2 = none ∧
    set_color_buffer fbEmpty (some rbColor480) =
      (fbEmpty, [], some Err.TypeMismatchError) ∧
    set_depth_buffer fbEmpty (some rbColor480) =
      (fbEmpty, [], some Err.TypeMismatchError) := by
  decide

/-- C2: the claim fails on the code.  A non-RenderBuffer object is indeed
rejected with slot and queue untouched, but a plain
`RenderBuffer((4, 5), 'stencil')` is rejected too — the `isinstance` check
(line 274) accepts only the deprecated subclass `StencilBuffer` — so the
stencil slot does not accept every RenderBuffer, contradicting the
`FrameBuffer` docstring and the deprecation warnings.  The fixture
`fbWithStencil` shows the previous attachment staying in place. -/
theorem C2_stencil_rejects_renderBuffer :
    (RenderBuffer_init 2 GKind.renderBuffer [4, 5]
        (some (FmtArg.strName "stencil")) true).2.2 = none ∧
    set_stencil_buffer fbWithStencil (some rbStencil45) =
      (fbWithStencil, [], some Err.TypeMismatchError) ∧
    set_stencil_buffer fbWithStencil (some sb45) =
      ({ fbWithStencil with stencil := some sb45 },
       [Command.ATTACH 9 GL_STENCIL_ATTACHMENT 3], none) := by
  decide

/-- C3: the claim fails on the code.  `RenderBuffer.resize` stores the shape
argument verbatim (`self._shape = shape`, line 90), so after a resize with
the 3-element tuple (240, 320, 3) the shape property returns the 3-element
tuple, not (240, 320) — contradicting the method docstring, which says the
last dimension of a 3-element shape is ignored (and breaking the
`h, w = buffer._shape` unpack in `FrameBuffer.read`).  The 2-element case
does behave as claimed. -/
theorem C3_shape_keeps_third_element :
    (rb_resize rbColor480 [240, 320, 3] none).2.2 = none ∧
    (rb_resize rbColor480 [240, 320, 3] none).1.shape = some [240, 320, 3] ∧
    (rb_resize rbColor480 [240, 320] none).1.shape = some [240, 320] := by
  decide

/-- C4: `FrameBuffer.shape` returns the stored shape of the color attachment
when the color slot is occupied, else the depth attachment's, else the
stencil attachment's, and raises `UndefinedShapeError` when all three slots
are empty — the four cases together cover all eight presence combinations. -/
theorem C4_fb_shape_priority (fb : FBState) :
    (∀ b, fb.color = some b → fb_shape fb = Except.ok b.shape) ∧
    (fb.color = none → ∀ b, fb.depth = some b → fb_shape fb = Except.ok b.shape) ∧
    (fb.color = none → fb.depth = none → ∀ b, fb.stencil = some b →
        fb_shape fb = Except.ok b.shape) ∧
    (fb.color = none → fb.depth = none → fb.stencil = none →
        fb_shape fb = Except.error Err.UndefinedShapeError) := by
  refine ⟨?_, ?_, ?_, ?_⟩ <;> intros <;> simp_all [fb_shape]

/-- Witness for C4 at a FrameBuffer with only a color attachment. -/
theorem C4_witness : fb_shape fb8 = Except.ok (some [240, 320]) :=
  (C4_fb_shape_priority fb8).1 c8 rfl

/-- C5: resizing any buffer whose resizeable flag is false fails with
`ImmutableResourceError`, whatever the shape and format arguments, and the
returned state is the input state — shape and format unchanged. -/
theorem C5_nonresizeable_resize_fails (rb : GObj) (shape : List Nat)
    (format : Option FmtArg) (h : rb.resizeable = false) :
    rb_resize rb shape format = (rb, [], some Err.ImmutableResourceError) := by
  simp [rb_resize, h]

/-- Witness for C5 at the non-resizeable fixture `rbFrozen`. -/
theorem C5_witness :
    rb_resize rbFrozen [1, 2] none = (rbFrozen, [], some Err.ImmutableResourceError) :=
  C5_nonresizeable_resize_fails rbFrozen [1, 2] none rfl

/-- C6: a resize with the format argument omitted reuses the last-set
format, both in the stored state and in the emitted SIZE command; when no
format was ever set it fails with `MissingFormatError` (stated for a
resizeable buffer and a valid shape, the checks that precede format
resolution in the source). -/
theorem C6_format_none_reuses_or_fails (rb : GObj) (shape : List Nat)
    (hres : rb.resizeable = true) (hlen : shape.length = 2 ∨ shape.length = 3) :
    (∀ f, rb.format = some f →
        rb_resize rb shape none =
          ({ rb with shape := some shape, format := some f },
           [Command.SIZE rb.id shape f], none)) ∧
    (rb.format = none →
        rb_resize rb shape none = (rb, [], some Err.MissingFormatError)) := by
  constructor
  · intro f hf
    simp [rb_resize, hres, hlen, resolveFormat, hf]
  · intro hf
    exact rb_resize_error_eq rb shape none Err.MissingFormatError
      (by simp [rb_resize, hres, hlen, resolveFormat, hf])

/-- Witness for C6: reuse of the stored format, and the missing-format
failure. -/
theorem C6_witness :
    rb_resize rbC6 [2, 3] none =
      ({ rbC6 with shape := some [2, 3], format := some GL_RGBA },
       [Command.SIZE 5 [2, 3] GL_RGBA], none) ∧
    rb_resize rbNoFormat [2, 3] none = (rbNoFormat, [], some Err.MissingFormatError) :=
  ⟨(C6_format_none_reuses_or_fails rbC6 [2, 3] rfl (Or.inl rfl)).1 GL_RGBA rfl,
   (C6_format_none_reuses_or_fails rbNoFormat [2, 3] rfl (Or.inl rfl)).2 rfl⟩

/-- C7: `FrameBuffer.resize` with a valid shape on a resizeable FrameBuffer
forwards the resize to the attached objects in the order color, depth,
stencil, each with its own format (the per-slot call is `resize_slot`,
which invokes `buffer.resize(shape)` on an occupied slot and skips an empty
one).  If the color slot's resize fails, everything is left unchanged; if
the depth slot's fails, the color slot keeps its new size and only the
color commands were emitted; once color and depth succeed, the result holds
all three updated slots and the concatenated commands, and fails exactly
when the stencil resize fails. -/
theorem C7_fb_resize_forwards (fb : FBState) (shape : List Nat)
    (hres : fb.resizeable = true) (hlen : shape.length = 2 ∨ shape.length = 3) :
    (∀ e, (resize_slot fb.color shape).2.2 = some e →
        fb_resize fb shape = (fb, [], some e)) ∧
    (∀ e, (resize_slot fb.color shape).2.2 = none →
        (resize_slot fb.depth shape).2.2 = some e →
        fb_resize fb shape =
          ({ fb with color := (resize_slot fb.color shape).1 },
           (resize_slot fb.color shape).2.1, some e)) ∧
    ((resize_slot fb.color shape).2.2 = none →
        (resize_slot fb.depth shape).2.2 = none →
        fb_resize fb shape =
          ({ fb with color := (resize_slot fb.color shape).1,
                     depth := (resize_slot fb.depth shape).1,
                     stencil := (resize_slot fb.stencil shape).1 },
           (resize_slot fb.color shape).2.1 ++ (resize_slot fb.depth shape).2.1 ++
             (resize_slot fb.stencil shape).2.1,
           (resize_slot fb.stencil shape).2.2)) := by
  refine ⟨?_, ?_, ?_⟩
  · intro e he
    have h1 := resize_slot_error_eq fb.color shape e he
    cases fb with
    | mk i r c d s => simp_all [fb_resize]
  · intro e hc hd
    have h1 := resize_slot_error_eq fb.depth shape e hd
    cases fb with
    | mk i r c d s => simp_all [fb_resize]
  · intro hc hd
    simp [fb_resize, hres, hlen, hc, hd]

/-- Witness for C7: a FrameBuffer whose color attachment resizes fine and
whose depth attachment is non-resizeable — the overall resize fails, the
color buffer stays at the new size, depth and stencil keep the old one. -/
theorem C7_witness :
    fb_resize fb7 [240, 320] =
      ({ fb7 with color := some { colorBuf7 with shape := some [240, 320] } },
       [Command.SIZE 11 [240, 320] GL_RGBA], some Err.ImmutableResourceError) :=
  (C7_fb_resize_forwards fb7 [240, 320] rfl (Or.inl rfl)).2.1
    Err.ImmutableResourceError rfl rfl

/-- C8: `FrameBuffer.read` rejects a mode outside color/depth/stencil,
fails when the slot named by the mode is empty, and otherwise returns a
pixel array over the attached object's stored (height, width) shape with 4
channels when alpha is true and 3 when it is false. -/
theorem C8_read_contract (fb : FBState) (mode : String) (alpha : Bool) (h w : Nat) :
    (¬ (mode = "color" ∨ mode = "depth" ∨ mode = "stencil") →
        fb_read fb mode alpha = Except.error Err.InvalidModeError) ∧
    (fb.color = none → fb_read fb "color" alpha = Except.error Err.NoAttachmentError) ∧
    (fb.depth = none → fb_read fb "depth" alpha = Except.error Err.NoAttachmentError) ∧
    (fb.stencil = none → fb_read fb "stencil" alpha = Except.error Err.NoAttachmentError) ∧
    (∀ b, fb.color = some b → b.shape = some [h, w] →
        fb_read fb "color" alpha = Except.ok (h, w, if alpha then 4 else 3)) ∧
    (∀ b, fb.depth = some b → b.shape = some [h, w] →
        fb_read fb "depth" alpha = Except.ok (h, w, if alpha then 4 else 3)) ∧
    (∀ b, fb.stencil = some b → b.shape = some [h, w] →
        fb_read fb "stencil" alpha = Except.ok (h, w, if alpha then 4 else 3)) := by
  refine ⟨?_, ?_, ?_, ?_, ?_, ?_, ?_⟩ <;> intros <;> simp_all [fb_read, read_pixels]

/-- Witness for C8: reading the color attachment of shape (240, 320) with
alpha gives a (240, 320, 4) array. -/
theorem C8_witness : fb_read fb8 "color" true = Except.ok (240, 320, 4) :=
  (C8_read_contract fb8 "color" true 240 320).2.2.2.2.1 c8 rfl rfl

/-- C9: constructing a RenderBuffer with resizeable false always raises
`ImmutableResourceError` (the constructor sizes through `resize`, whose
first check rejects non-resizeable buffers), every successful construction
therefore ran with — and stores — a true resizeable flag, and `resize`, the
only state-changing operation, preserves the flag. -/
theorem C9_resizeable_invariant (id : Nat) (kind : GKind) (shape : List Nat)
    (format : Option FmtArg) :
    (RenderBuffer_init id kind shape format false).2.2 =
      some Err.ImmutableResourceError ∧
    (∀ r st cmds, RenderBuffer_init id kind shape format r = (st, cmds, none) →
        r = true ∧ st.resizeable = true) ∧
    (∀ st sh f, ((rb_resize st sh f).1).resizeable = st.resizeable) := by
  refine ⟨by simp [RenderBuffer_init, rb_resize], ?_, rb_resize_preserves_resizeable⟩
  intro r st cmds hcall
  cases r with
  | false =>
    have h2 : (RenderBuffer_init id kind shape format false).2.2 = none := by
      rw [hcall]
    simp [RenderBuffer_init, rb_resize] at h2
  | true =>
    refine ⟨rfl, ?_⟩
    have h3 := rb_resize_preserves_resizeable
      { id := id, kind := kind, resizeable := true } shape format
    have h4 : (RenderBuffer_init id kind shape format true).1 = st := by
      rw [hcall]
    rw [← h4]
    exact h3

/-- Witness for C9: a concrete construction with resizeable false raises. -/
theorem C9_witness :
    (RenderBuffer_init 30 GKind.renderBuffer [3, 4] (some (FmtArg.strName "color"))
        false).2.2 = some Err.ImmutableResourceError :=
  (C9_resizeable_invariant 30 GKind.renderBuffer [3, 4]
    (some (FmtArg.strName "color"))).1

/-- C10: whenever `RenderBuffer.resize` raises — non-resizeable buffer, bad
shape arity, unknown format string, or format omitted with none stored —
the returned state equals the input state (shape and format untouched) and
no command was emitted: in the source every raise precedes the stores of
line 90-91 and the SIZE emission of line 92. -/
theorem C10_resize_failure_no_mutation (rb : GObj) (shape : List Nat)
    (format : Option FmtArg) (e : Err)
    (h : (rb_resize rb shape format).2.2 = some e) :
    (rb_resize rb shape format).1 = rb ∧ (rb_resize rb shape format).2.1 = [] := by
  rw [rb_resize_error_eq rb shape format e h]
  exact ⟨rfl, rfl⟩

/-- Witness for C10: a resize with a 1-element shape fails and mutates
nothing. -/
theorem C10_witness :
    (rb_resize rb10 [7] none).1 = rb10 ∧ (rb_resize rb10 [7] none).2.1 = [] :=
  C10_resize_failure_no_mutation rb10 [7] none Err.InvalidShapeError rfl

end Vispy
